import Mathlib

/-!
Shallow embedding of the libqthttpserver response core: the IOChunkedTransfer
pump and the QHttpServerResponder write paths (qhttpserverresponder.cpp), and
the QAbstractHttpServer::handleReadyRead connection loop
(qabstracthttpserver.cpp), together with theorems settling the specification
claims against them.
-/

/-- State of an IOChunkedTransfer (qhttpserverresponder.cpp lines 54-134).
The qint64 indices are Int (they start at -1); the malloc'ed byte buffer is a
list of byte values; source holds the remaining content of a fully-available
input device; sinkData accumulates the bytes the sink has accepted across all
writes; pendingRead models a scheduled QTimer::singleShot readFromInput call,
and done models the source->deleteLater teardown trigger. -/
structure IOChunkedTransfer where
  bufferSize : Int
  buffer : List Nat
  beginIndex : Int
  endIndex : Int
  source : List Nat
  writeReady : Bool
  sinkData : List Nat
  pendingRead : Bool
  done : Bool
deriving DecidableEq

/-- isBufferEmpty (lines 93-97): beginIndex == endIndex.  The Q_ASSERT
(beginIndex <= endIndex) inside it is stated separately where relevant. -/
def isBufferEmpty (s : IOChunkedTransfer) : Bool :=
  s.beginIndex == s.endIndex

/-- The write request issued by writeToOutput when its guard passes
(line 119): sink->write(buffer + beginIndex, endIndex) passes the region of
the buffer starting at offset beginIndex with LENGTH ARGUMENT endIndex.
Returns none when the guard (buffer non-empty and writeReady) blocks. -/
def writeRequest (s : IOChunkedTransfer) : Option (Int × List Nat) :=
  if isBufferEmpty s || !s.writeReady then none
  else some (s.endIndex, (s.buffer.drop s.beginIndex.toNat).take s.endIndex.toNat)

/-- writeToOutput (lines 114-133).  k is the sink's return value for the
issued write: -1 on error, otherwise the number of accepted bytes
(0 <= k <= length argument = endIndex, enforced by the event legality).
The sink receives the first k bytes of the passed region. -/
def writeToOutput (k : Int) (s : IOChunkedTransfer) : IOChunkedTransfer :=
  if isBufferEmpty s || !s.writeReady then s
  else
    let delivered := ((s.buffer.drop s.beginIndex.toNat).take s.endIndex.toNat).take k.toNat
    let s1 := { s with writeReady := false }
    if k < 0 then s1
    else
      let s2 := { s1 with beginIndex := s1.beginIndex + k,
                          sinkData := s1.sinkData ++ delivered }
      if isBufferEmpty s2 then
        if s2.source.length ≠ 0 then { s2 with pendingRead := true }
        else { s2 with done := true }
      else s2

/-- readFromInput (lines 99-112).  n is the result of
source->read(buffer, bufferSize): -1 on error, otherwise the number of bytes
read from the source into the front of the buffer (for a fully-available
source, up to min(bufferSize, remaining)).  The memset on line 109 zeroes the
buffer tail beyond endIndex.  A read of n > 0 bytes immediately triggers
writeToOutput with sink result k. -/
def readFromInput (n k : Int) (s : IOChunkedTransfer) : IOChunkedTransfer :=
  if !isBufferEmpty s then s
  else
    let s1 := { s with beginIndex := 0, endIndex := n }
    if n < 0 then { s1 with endIndex := s1.beginIndex }
    else if n ≠ 0 then
      let s2 := { s1 with
        buffer := s1.source.take n.toNat ++ List.replicate (s1.bufferSize - n).toNat 0,
        source := s1.source.drop n.toNat }
      writeToOutput k s2
    else s1

/-- The member-initializer state of the IOChunkedTransfer constructor
(lines 62-69), before the constructor body runs readFromInput: beginIndex and
endIndex are -1, writeReady is true, nothing delivered yet.  The malloc'ed
buffer content is modelled as zeroes (it is only observed after the first
read overwrites and memsets it). -/
def initialTransfer (cap : Int) (src : List Nat) : IOChunkedTransfer :=
  { bufferSize := cap
    buffer := List.replicate cap.toNat 0
    beginIndex := -1
    endIndex := -1
    source := src
    writeReady := true
    sinkData := []
    pendingRead := false
    done := false }

/-- Asynchronous events driving the pump: the sink's bytesWritten
notification (lines 73-76, carrying the next write's sink result k), and the
QTimer::singleShot readFromInput (line 129, carrying the read result n and
the nested write's sink result k). -/
inductive Ev where
  | drained (k : Int)
  | timer (n k : Int)
deriving DecidableEq

/-- Event semantics: bytesWritten sets writeReady and re-runs writeToOutput
(lines 73-76); the timer clears its pending flag and runs readFromInput. -/
def stepEv : Ev → IOChunkedTransfer → IOChunkedTransfer
  | Ev.drained k, s => writeToOutput k { s with writeReady := true }
  | Ev.timer n k, s => readFromInput n k { s with pendingRead := false }

/-- Which events the environment can legally deliver: the transfer must not
be torn down; a sink write returns -1 <= k <= the length argument (endIndex);
a timer read only fires when scheduled, and a read returns
-1 <= n <= min(bufferSize, bytes available), with the nested write's sink
result bounded by the new length argument n. -/
def Legal : Ev → IOChunkedTransfer → Bool
  | Ev.drained k, s =>
      !s.done && decide (-1 ≤ k) && decide (k ≤ s.endIndex)
  | Ev.timer n k, s =>
      !s.done && s.pendingRead && decide (-1 ≤ n) &&
        decide (n ≤ min s.bufferSize (s.source.length : Int)) &&
        decide (-1 ≤ k) && decide (k ≤ n)

/-- A restricted environment in which every sink write accepts at most the
unconsumed window endIndex - beginIndex (never the zero padding that the
code's oversized length argument exposes). -/
def LegalSane : Ev → IOChunkedTransfer → Bool
  | Ev.drained k, s =>
      !s.done && decide (-1 ≤ k) && decide (k ≤ s.endIndex - s.beginIndex)
  | Ev.timer n k, s =>
      !s.done && s.pendingRead && decide (-1 ≤ n) &&
        decide (n ≤ min s.bufferSize (s.source.length : Int)) &&
        decide (-1 ≤ k) && decide (k ≤ n)

/-- States reachable from construction under event legality L: the
constructor (whose assert requires a non-empty source, line 78) runs the
first readFromInput, and then legal events are delivered one at a time. -/
inductive ReachableWith (L : Ev → IOChunkedTransfer → Bool) (cap : Int) (src : List Nat) :
    IOChunkedTransfer → Prop
  | init (n k : Int) :
      0 < cap → src ≠ [] → -1 ≤ n → n ≤ min cap (src.length : Int) → -1 ≤ k → k ≤ n →
      ReachableWith L cap src (readFromInput n k (initialTransfer cap src))
  | step (e : Ev) (s : IOChunkedTransfer) :
      ReachableWith L cap src s → L e s = true →
      ReachableWith L cap src (stepEv e s)

/-- The responder's sink socket: open state plus the bytes queued so far. -/
structure Socket where
  isOpen : Bool
  queued : String
deriving DecidableEq

/-- QIODevice::write on the socket: a closed device accepts nothing (it
returns an error and queues no bytes, with its own warning); an open one
queues the bytes. -/
def socketWrite (sock : Socket) (bs : String) : Socket :=
  if sock.isOpen then { sock with queued := sock.queued ++ bs } else sock

/-- QHttpServerResponder together with its private part: the borrowed
socket, the pending header pairs, and whether any Q_ASSERT was violated
(a debug-build abort). -/
structure Responder where
  sock : Socket
  headers : List (String × String)
  assertFailed : Bool
deriving DecidableEq

/-- The static status-reason table (lines 44-48), generated from the
HTTP_STATUS_MAP of the external http_parser dependency; only the entries
exercised in this development are listed (the real std::map::at would be
called only with codes present in the exhaustive table). -/
def statusString : Nat → String
  | 200 => "OK"
  | 404 => "Not Found"
  | 500 => "Internal Server Error"
  | _ => ""

/-- writeStatusLine (lines 271-284): Q_ASSERT(socket->isOpen()), then the
nine socket writes forming the status line.  The version pair is passed
explicitly; the declaration's default argument lives in
qhttpserverresponder_p.h. -/
def writeStatusLine (st : Nat) (ver : Nat × Nat) (r : Responder) : Responder :=
  { r with
    assertFailed := r.assertFailed || !r.sock.isOpen
    sock := ["HTTP/", toString ver.1, ".", toString ver.2, " ", toString st, " ",
             statusString st, "\r\n"].foldl socketWrite r.sock }

/-- Modelled from the spec: the default protocol version of writeStatusLine,
whose default argument is declared in qhttpserverresponder_p.h (not under
src); spec section 4.3 and scenario B fix it as HTTP/1.1. -/
def defaultVersion : Nat × Nat := (1, 1)

/-- writeHeader (lines 286-293): one header line as four socket writes. -/
def writeHeader (key value : String) (sock : Socket) : Socket :=
  [key, ": ", value, "\r\n"].foldl socketWrite sock

/-- writeHeaders (lines 295-299): emit every pending pair in order. -/
def writeHeaders (r : Responder) : Responder :=
  { r with sock := r.headers.foldl (fun sk p => writeHeader p.1 p.2 sk) r.sock }

/-- writeBody (lines 301-306): Q_ASSERT(socket->isOpen()), blank line, body. -/
def writeBody (body : String) (r : Responder) : Responder :=
  { r with
    assertFailed := r.assertFailed || !r.sock.isOpen
    sock := socketWrite (socketWrite r.sock "\r\n") body }

/-- Modelled from the spec: QHttpServerResponderPrivate::addHeader appends
one (key, value) pair to the pending header list in insertion order
(duplicates appended, not overwritten); the storage is declared in
qhttpserverresponder_p.h, which is not under src. -/
def addHeader (key value : String) (r : Responder) : Responder :=
  { r with headers := r.headers ++ [(key, value)] }

/-- write(const QByteArray, mimeType, status) (lines 227-237): status line,
then addHeaders(Content-Type, mime, Content-Length, size) — the variadic
addHeaders template is declared in the public header (not under src) and per
the spec appends its pairs in argument order — then the header lines, then
the blank line and the full body.  Content-Length is the byte count of the
body (bodies here are ASCII, so String.length). -/
def writeBytes (data mime : String) (st : Nat) (r : Responder) : Responder :=
  writeBody data
    (writeHeaders
      (addHeader "Content-Length" (toString data.length)
        (addHeader "Content-Type" mime
          (writeStatusLine st defaultVersion r))))

/-- write(StatusCode) (lines 251-254): empty body, application/x-empty. -/
def writeStatusOnly (st : Nat) (r : Responder) : Responder :=
  writeBytes "" "application/x-empty" st r

/-- The body-source QIODevice handed to write(QIODevice*): open state,
whether open(QIODevice::ReadOnly) would succeed, whether the current open
mode includes ReadOnly, sequential-ness, the reported size, and the
available content (atEnd is content exhaustion). -/
structure InputDevice where
  isOpen : Bool
  openReadSucceeds : Bool
  readable : Bool
  sequential : Bool
  size : Int
  content : String
deriving DecidableEq

/-- Result of the streaming write path: the responder afterwards, whether an
IOChunkedTransfer was created (line 220), and whether the 500 substitution
path ran. -/
structure StreamOutcome where
  resp : Responder
  transferCreated : Bool
  responded500 : Bool
deriving DecidableEq

/-- write(QIODevice*, mimeType, status) (lines 176-221): open/mode checks
with 500 substitution, socket-open check (warning-only no-op), status line,
Content-Length only for non-sequential sources, Content-Type, header lines,
blank line, and an IOChunkedTransfer only when the source is not atEnd. -/
def writeIODevice (input : InputDevice) (mime : String) (st : Nat) (r : Responder) :
    StreamOutcome :=
  if !input.isOpen && !input.openReadSucceeds then
    { resp := writeStatusOnly 500 r, transferCreated := false, responded500 := true }
  else if input.isOpen && !input.readable then
    { resp := writeStatusOnly 500 r, transferCreated := false, responded500 := true }
  else
    let inp := if input.isOpen then input
               else { input with isOpen := true, readable := true }
    if !r.sock.isOpen then
      { resp := r, transferCreated := false, responded500 := false }
    else
      let r1 := writeStatusLine st defaultVersion r
      let r2 := if !inp.sequential then
          addHeader "Content-Length" (toString inp.size) r1
        else r1
      let r3 := addHeader "Content-Type" mime r2
      let r4 := writeHeaders r3
      let r5 := { r4 with sock := socketWrite r4.sock "\r\n" }
      if inp.content = "" then
        { resp := r5, transferCreated := false, responded500 := false }
      else
        { resp := r5, transferCreated := true, responded500 := false }

/-- A responder on a fresh open socket with no pending headers. -/
def freshResponder : Responder :=
  { sock := { isOpen := true, queued := "" }, headers := [], assertFailed := false }

/-- A responder whose socket is already closed. -/
def closedResponder : Responder :=
  { sock := { isOpen := false, queued := "" }, headers := [], assertFailed := false }

/-- An input device that is already open for reading. -/
def openReadableInput : InputDevice :=
  { isOpen := true, openReadSucceeds := true, readable := true, sequential := true,
    size := 0, content := "z" }

/-- An input device that is closed and cannot be opened. -/
def unopenableInput : InputDevice :=
  { isOpen := false, openReadSucceeds := false, readable := false, sequential := false,
    size := 0, content := "" }

/-- A non-sequential (random-access) input device reporting its size. -/
def fileInput : InputDevice :=
  { isOpen := true, openReadSucceeds := true, readable := true, sequential := false,
    size := 3, content := "abc" }

/-- Parse states of a request (spec section 3; the enum is declared in
qhttpserverrequest_p.h, which is not under src). -/
inductive PState where
  | Idle
  | OnMessageBegin
  | OnHeaders
  | OnBody
  | OnMessageComplete
deriving DecidableEq

/-- A request as the connection loop sees it: parse state, header mapping
(keys compared case-insensitively), body, and the http_parser upgrade flag. -/
structure Req where
  state : PState
  headers : List (String × String)
  body : String
  upgradeFlag : Bool
deriving DecidableEq

/-- Modelled from the spec: QHttpServerRequestPrivate::clear resets the
request to Idle and empties the accumulated message for keep-alive reuse of
the connection slot (declared in qhttpserverrequest_p.h, implemented in
qhttpserverrequest.cpp, neither under src). -/
def clearReq (_r : Req) : Req :=
  { state := PState.Idle, headers := [], body := "", upgradeFlag := false }

/-- Modelled from the spec: QHttpServerRequestPrivate::parse feeds the newly
available socket bytes to the protocol state machine and reports a fatal
protocol error as failure; its implementation is not under src, so the
connection loop is stated over an abstract parse function. -/
def ParseFn : Type :=
  Req → String → Option Req

/-- Case-insensitive ASCII string comparison (Qt::CaseInsensitive). -/
def ciEq (a b : String) : Bool :=
  a.data.map Char.toLower == b.data.map Char.toLower

/-- The headers.find(headerHash("upgrade")) lookup: case-insensitive search
of the header mapping, none modelling the end iterator. -/
def findHeader (hs : List (String × String)) (key : String) :
    Option (String × String) :=
  hs.find? (fun h => ciEq h.1 key)

/-- Observable outcome of one handleReadyRead invocation. -/
structure ReadOutcome where
  req : Req
  disconnected : Bool
  dispatched : Bool
  handedOff : Bool
  committed : Bool
  rolledBack : Bool
  badUpgradeDeref : Bool
deriving DecidableEq

/-- Lines 81-121 of qabstracthttpserver.cpp, after the lazy clear of lines
78-79: parse the new bytes (a fatal error disconnects), return on a partial
read, handle the upgrade path (WebSocket handoff when the library is
compiled in and a slot is connected; any other case warns — dereferencing
the upgrade-header lookup at line 113 — and disconnects), otherwise commit
the transaction and dispatch.  wsLib models QT_WEBSOCKETS_LIB being defined;
wsConnected models isSignalConnected(newWebSocketConnection).
badUpgradeDeref records that line 113 dereferenced the end iterator because
the lookup found no upgrade header. -/
def handleAfterClear (p : ParseFn) (wsLib wsConnected : Bool) (r : Req) (bs : String) :
    ReadOutcome :=
  match p r bs with
  | none =>
      { req := r, disconnected := true, dispatched := false, handedOff := false,
        committed := false, rolledBack := false, badUpgradeDeref := false }
  | some r' =>
      if !r'.upgradeFlag && !(r'.state == PState.OnMessageComplete) then
        { req := r', disconnected := false, dispatched := false, handedOff := false,
          committed := false, rolledBack := false, badUpgradeDeref := false }
      else if r'.upgradeFlag then
        match findHeader r'.headers "upgrade" with
        | some hv =>
            if wsLib && ciEq hv.2 "websocket" then
              if wsConnected then
                { req := r', disconnected := false, dispatched := false,
                  handedOff := true, committed := false, rolledBack := true,
                  badUpgradeDeref := false }
              else
                { req := r', disconnected := true, dispatched := false,
                  handedOff := false, committed := false, rolledBack := false,
                  badUpgradeDeref := false }
            else
              { req := r', disconnected := true, dispatched := false,
                handedOff := false, committed := false, rolledBack := false,
                badUpgradeDeref := false }
        | none =>
            { req := r', disconnected := true, dispatched := false, handedOff := false,
              committed := false, rolledBack := false, badUpgradeDeref := true }
      else
        { req := r', disconnected := false, dispatched := true, handedOff := false,
          committed := true, rolledBack := false, badUpgradeDeref := false }

/-- handleReadyRead (lines 69-121): if the previous message reached
OnMessageComplete, the request is cleared (lines 78-79) before the newly
arrived bytes are parsed. -/
def handleReadyRead (p : ParseFn) (wsLib wsConnected : Bool) (r : Req) (bs : String) :
    ReadOutcome :=
  handleAfterClear p wsLib wsConnected
    (if r.state == PState.OnMessageComplete then clearReq r else r) bs

/-- A request slot whose previous message was fully dispatched. -/
def completeReq : Req :=
  { state := PState.OnMessageComplete, headers := [("Host", "x")], body := "b",
    upgradeFlag := false }

/-- A request slot in its initial state. -/
def idleReq : Req :=
  { state := PState.Idle, headers := [], body := "", upgradeFlag := false }

/-- A parse function that leaves the request unchanged. -/
def echoParse : ParseFn := fun r _ => some r

/-- A parse result flagged as an upgrade but carrying no upgrade header. -/
def upgradeNoHeaderReq : Req :=
  { state := PState.OnMessageComplete, headers := [("Host", "x")], body := "",
    upgradeFlag := true }

/-- Parse function producing the header-less upgrade request. -/
def upgradeNoHeaderParse : ParseFn := fun _ _ => some upgradeNoHeaderReq

/-- A parse result flagged as an upgrade and carrying an Upgrade header. -/
def upgradeWebsocketReq : Req :=
  { state := PState.OnMessageComplete, headers := [("Upgrade", "websocket")],
    body := "", upgradeFlag := true }

/-- Parse function producing the websocket upgrade request. -/
def upgradeWebsocketParse : ParseFn := fun _ _ => some upgradeWebsocketReq

/-- A write is never issued while writeReady is false: the guard on line 116
returns without touching any state. -/
theorem writeToOutput_of_not_ready (s : IOChunkedTransfer) (k : Int)
    (h : s.writeReady = false) : writeToOutput k s = s := by
  simp [writeToOutput, h]

/-- writeToOutput preserves the window bounds provided the sink accepts at
most the unconsumed window. -/
theorem writeToOutput_windowInv (s : IOChunkedTransfer) (k : Int)
    (h0 : 0 ≤ s.beginIndex) (h1 : s.beginIndex ≤ s.endIndex)
    (h2 : s.endIndex ≤ s.bufferSize) (hk : k ≤ s.endIndex - s.beginIndex) :
    0 ≤ (writeToOutput k s).beginIndex ∧
      (writeToOutput k s).beginIndex ≤ (writeToOutput k s).endIndex ∧
      (writeToOutput k s).endIndex ≤ (writeToOutput k s).bufferSize := by
  unfold writeToOutput
  split
  · exact ⟨h0, h1, h2⟩
  · dsimp only
    split
    · exact ⟨h0, h1, h2⟩
    · rename_i hneg
      split
      · split
        · dsimp only; omega
        · dsimp only; omega
      · dsimp only; omega

/-- readFromInput preserves the window bounds: a read into an empty buffer
establishes the window [0, n) with n at most bufferSize, and the triggered
write preserves it when the sink result is bounded by n. -/
theorem readFromInput_windowInv (s : IOChunkedTransfer) (n k : Int)
    (hbs : 0 ≤ s.bufferSize) (hn : n ≤ s.bufferSize) (hk : k ≤ n)
    (hne : isBufferEmpty s = false →
      0 ≤ s.beginIndex ∧ s.beginIndex ≤ s.endIndex ∧ s.endIndex ≤ s.bufferSize) :
    0 ≤ (readFromInput n k s).beginIndex ∧
      (readFromInput n k s).beginIndex ≤ (readFromInput n k s).endIndex ∧
      (readFromInput n k s).endIndex ≤ (readFromInput n k s).bufferSize := by
  unfold readFromInput
  split
  · rename_i hg
    exact hne (by simpa using hg)
  · dsimp only
    split
    · dsimp only; omega
    · split
      · rename_i hneg hnz
        refine writeToOutput_windowInv _ _ ?_ ?_ ?_ ?_ <;> dsimp only <;> omega
      · dsimp only; omega

/-- C1 (code_bug evidence): at a reachable state with a non-empty window
[1, 2) and writeReady true, the pump issues a write whose length argument is
endIndex = 2 (delivering the remaining byte plus one zero padding byte), not
endIndex - beginIndex = 1 as the claim states.  The state arises from a
fully-available 2-byte source, capacity-4 buffer, after the sink accepted
only 1 byte of the first write. -/
theorem c1_write_length_bug :
    ReachableWith Legal 4 [1, 2] (readFromInput 2 1 (initialTransfer 4 [1, 2])) ∧
    writeRequest { readFromInput 2 1 (initialTransfer 4 [1, 2]) with writeReady := true } =
      some (2, [2, 0]) ∧
    (readFromInput 2 1 (initialTransfer 4 [1, 2])).endIndex -
      (readFromInput 2 1 (initialTransfer 4 [1, 2])).beginIndex = 1 :=
  ⟨ReachableWith.init 2 1 (by decide) (by decide) (by decide) (by decide) (by decide)
      (by decide),
   by decide, by decide⟩

/-- C2 (code_bug evidence): with the fully-available 2-byte source [1, 2]
and a capacity-4 buffer, after the sink accepts 1 byte of the first write and
then the full oversized request of the second write, the bytes delivered to
the sink are [1, 2, 0] — a spurious zero byte, so the concatenation differs
from the source content and the sum of write lengths (3) differs from the
source length (2); the resulting state moreover violates the code's own
Q_ASSERT(beginIndex <= endIndex) of isBufferEmpty (line 95). -/
theorem c2_stream_content_bug :
    ReachableWith Legal 4 [1, 2]
      (stepEv (Ev.drained 2) (readFromInput 2 1 (initialTransfer 4 [1, 2]))) ∧
    (stepEv (Ev.drained 2) (readFromInput 2 1 (initialTransfer 4 [1, 2]))).sinkData =
      [1, 2, 0] ∧
    (stepEv (Ev.drained 2) (readFromInput 2 1 (initialTransfer 4 [1, 2]))).sinkData ≠
      [1, 2] ∧
    (stepEv (Ev.drained 2) (readFromInput 2 1 (initialTransfer 4 [1, 2]))).sinkData.length ≠
      ([1, 2] : List Nat).length ∧
    ¬((stepEv (Ev.drained 2) (readFromInput 2 1 (initialTransfer 4 [1, 2]))).beginIndex ≤
      (stepEv (Ev.drained 2) (readFromInput 2 1 (initialTransfer 4 [1, 2]))).endIndex) :=
  ⟨ReachableWith.step (Ev.drained 2) _
      (ReachableWith.init 2 1 (by decide) (by decide) (by decide) (by decide) (by decide)
        (by decide))
      (by decide),
   by decide, by decide, by decide, by decide⟩

/-- C3 counterexample: in the state immediately after construction and before
the first read (the member-initializer state of lines 62-69), beginIndex is
-1, so the claimed bound 0 <= beginIndex does not hold there. -/
theorem c3_initial_state_counterexample :
    (initialTransfer 4 [1, 2]).beginIndex = -1 ∧
      ¬(0 ≤ (initialTransfer 4 [1, 2]).beginIndex) := by decide

/-- C3 (amended): at every state reachable from construction once the
constructor's initial read has run, and provided every sink write accepts at
most the unconsumed window endIndex - beginIndex (larger accepts are possible
because the code requests endIndex bytes, see C1), the window satisfies
0 <= beginIndex <= endIndex <= bufferCapacity, and the buffer is empty
exactly when beginIndex = endIndex. -/
theorem c3_window_invariant (cap : Int) (src : List Nat) (s : IOChunkedTransfer)
    (h : ReachableWith LegalSane cap src s) :
    (0 ≤ s.beginIndex ∧ s.beginIndex ≤ s.endIndex ∧ s.endIndex ≤ s.bufferSize) ∧
      (isBufferEmpty s = true ↔ s.beginIndex = s.endIndex) := by
  refine ⟨?_, by simp [isBufferEmpty]⟩
  induction h with
  | init n k hcap hsrc hn1 hn2 hk1 hk2 =>
      refine readFromInput_windowInv _ _ _ ?_ ?_ hk2 ?_
      · dsimp [initialTransfer]; omega
      · exact le_trans hn2 (min_le_left _ _)
      · intro hfalse
        simp [isBufferEmpty, initialTransfer] at hfalse
  | step e s hs hleg ih =>
      cases e with
      | drained k =>
          simp only [LegalSane, Bool.and_eq_true, decide_eq_true_eq] at hleg
          dsimp only [stepEv]
          exact writeToOutput_windowInv _ _ ih.1 ih.2.1 ih.2.2 hleg.2
      | timer n k =>
          simp only [LegalSane, Bool.and_eq_true, decide_eq_true_eq] at hleg
          dsimp only [stepEv]
          refine readFromInput_windowInv _ _ _ ?_ ?_ hleg.2 ?_
          · show (0 : Int) ≤ s.bufferSize
            omega
          · exact le_trans hleg.1.1.2 (min_le_left _ _)
          · intro _
            exact ih

/-- C3 witness: a concrete reachable state (capacity 4, source [1, 2], full
read then full in-window write) satisfying the amended invariant. -/
theorem c3_window_invariant_witness :
    (0 ≤ (readFromInput 2 2 (initialTransfer 4 [1, 2])).beginIndex ∧
      (readFromInput 2 2 (initialTransfer 4 [1, 2])).beginIndex ≤
        (readFromInput 2 2 (initialTransfer 4 [1, 2])).endIndex ∧
      (readFromInput 2 2 (initialTransfer 4 [1, 2])).endIndex ≤
        (readFromInput 2 2 (initialTransfer 4 [1, 2])).bufferSize) ∧
      (isBufferEmpty (readFromInput 2 2 (initialTransfer 4 [1, 2])) = true ↔
        (readFromInput 2 2 (initialTransfer 4 [1, 2])).beginIndex =
          (readFromInput 2 2 (initialTransfer 4 [1, 2])).endIndex) :=
  c3_window_invariant 4 [1, 2] _
    (ReachableWith.init 2 2 (by decide) (by decide) (by decide) (by decide) (by decide)
      (by decide))

/-- C4: no write is issued while writeReady is false (the guard on line 116
blocks re-entry and leaves the state untouched); every issued write sets
writeReady to false immediately (line 120); and no event other than the
sink's bytesWritten (drained) notification can deliver bytes or set
writeReady back to true from a not-ready state. -/
theorem c4_no_write_when_not_ready :
    ∀ (s : IOChunkedTransfer) (k : Int),
      (s.writeReady = false → writeToOutput k s = s) ∧
      (writeRequest s ≠ none → (writeToOutput k s).writeReady = false) ∧
      (∀ e : Ev, (∀ j, e ≠ Ev.drained j) → s.writeReady = false →
        (stepEv e s).sinkData = s.sinkData ∧ (stepEv e s).writeReady = false) := by
  intro s k
  refine ⟨writeToOutput_of_not_ready s k, ?_, ?_⟩
  · intro h
    unfold writeToOutput
    split
    · rename_i hg
      exact absurd (by simp [writeRequest, hg]) h
    · dsimp only
      split
      · rfl
      · split
        · split
          · rfl
          · rfl
        · rfl
  · intro e he hw
    cases e with
    | drained j => exact absurd rfl (he j)
    | timer n k' =>
        dsimp only [stepEv]
        unfold readFromInput
        split
        · exact ⟨rfl, hw⟩
        · dsimp only
          split
          · exact ⟨rfl, hw⟩
          · split
            · rw [writeToOutput_of_not_ready]
              · exact ⟨rfl, hw⟩
              · exact hw
            · exact ⟨rfl, hw⟩

/-- Writing any list of pieces to a closed socket queues nothing. -/
theorem foldl_socketWrite_closed (l : List String) (sock : Socket)
    (h : sock.isOpen = false) : l.foldl socketWrite sock = sock := by
  induction l with
  | nil => rfl
  | cons a t ih =>
      rw [List.foldl_cons, show socketWrite sock a = sock from by
        simp [socketWrite, h]]
      exact ih

/-- Emitting header lines on a closed socket queues nothing. -/
theorem headersFoldl_closed (hs : List (String × String)) (sock : Socket)
    (h : sock.isOpen = false) :
    hs.foldl (fun sk p => writeHeader p.1 p.2 sk) sock = sock := by
  induction hs with
  | nil => rfl
  | cons a t ih =>
      rw [List.foldl_cons, show writeHeader a.1 a.2 sock = sock from
        foldl_socketWrite_closed _ _ h]
      exact ih

/-- socketWrite never changes the open state. -/
theorem socketWrite_isOpen (sock : Socket) (bs : String) :
    (socketWrite sock bs).isOpen = sock.isOpen := by
  unfold socketWrite
  split <;> rfl

/-- Writing a list of pieces never changes the open state. -/
theorem foldl_socketWrite_isOpen (l : List String) (sock : Socket) :
    (l.foldl socketWrite sock).isOpen = sock.isOpen := by
  induction l generalizing sock with
  | nil => rfl
  | cons a t ih => rw [List.foldl_cons, ih, socketWrite_isOpen]

/-- Emitting header lines never changes the open state. -/
theorem headersFoldl_isOpen (hs : List (String × String)) (sock : Socket) :
    (hs.foldl (fun sk p => writeHeader p.1 p.2 sk) sock).isOpen = sock.isOpen := by
  induction hs generalizing sock with
  | nil => rfl
  | cons a t ih =>
      rw [List.foldl_cons, ih]
      exact foldl_socketWrite_isOpen _ _

/-- A single header line never changes the open state. -/
theorem writeHeader_isOpen (key value : String) (sock : Socket) :
    (writeHeader key value sock).isOpen = sock.isOpen :=
  foldl_socketWrite_isOpen _ _

/-- On an open socket the buffered write path fires no assertion and leaves
the socket open. -/
theorem writeBytes_assert_of_open (data mime : String) (st : Nat) (r : Responder)
    (h : r.sock.isOpen = true) :
    (writeBytes data mime st r).assertFailed = r.assertFailed ∧
    (writeBytes data mime st r).sock.isOpen = true := by
  simp only [writeBytes, writeBody, writeHeaders, addHeader, writeStatusLine]
  simp [socketWrite_isOpen, foldl_socketWrite_isOpen, headersFoldl_isOpen,
    writeHeader_isOpen, h]

/-- On a closed socket the buffered write path queues nothing but violates
the socket-open assertions. -/
theorem writeBytes_closed (data mime : String) (st : Nat) (r : Responder)
    (h : r.sock.isOpen = false) :
    (writeBytes data mime st r).sock = r.sock ∧
    (writeBytes data mime st r).assertFailed = true := by
  simp only [writeBytes, writeBody, writeHeaders, addHeader, writeStatusLine]
  rw [foldl_socketWrite_closed _ _ h, headersFoldl_closed _ _ h]
  simp [socketWrite, h]

/-- C5 counterexample: the buffered write path (write(QByteArray), also used
by the status-only write) performs no socket-open check; on a closed socket
writeStatusLine's Q_ASSERT(socket->isOpen()) (line 274) is violated — a
debug-build crash — contradicting the claim's no-crash guarantee for every
write operation (no bytes get queued, though). -/
theorem c5_buffered_write_closed_socket :
    (writeBytes "x" "text/plain" 200 closedResponder).assertFailed = true ∧
      (writeBytes "x" "text/plain" 200 closedResponder).sock.queued = "" := by
  decide

/-- C5 (amended): on a closed socket no write path queues any bytes; the
streaming write is a clean warning-only no-op thanks to its explicit socket
check (lines 199-202; the source-open checks precede it), but the buffered
and status-only writes have no such check: they violate the
Q_ASSERT(socket->isOpen()) of writeStatusLine/writeBody (debug-build crash),
while in release builds the closed device rejects every write so nothing is
queued. -/
theorem c5_closed_socket_noop :
    ∀ (input : InputDevice) (mime data : String) (st : Nat) (r : Responder),
      r.sock.isOpen = false →
      (input.isOpen = true → input.readable = true →
        writeIODevice input mime st r =
          { resp := r, transferCreated := false, responded500 := false }) ∧
      ((writeBytes data mime st r).sock.queued = r.sock.queued ∧
        (writeBytes data mime st r).assertFailed = true) ∧
      ((writeStatusOnly st r).sock.queued = r.sock.queued ∧
        (writeStatusOnly st r).assertFailed = true) := by
  intro input mime data st r h
  refine ⟨?_, ⟨?_, (writeBytes_closed data mime st r h).2⟩,
    ⟨?_, (writeBytes_closed "" "application/x-empty" st r h).2⟩⟩
  · intro h1 h2
    simp [writeIODevice, h, h1, h2]
  · rw [(writeBytes_closed data mime st r h).1]
  · rw [show (writeStatusOnly st r).sock = r.sock from
      (writeBytes_closed "" "application/x-empty" st r h).1]

/-- C5 witness: concrete closed-socket no-ops. -/
theorem c5_closed_socket_noop_witness :
    writeIODevice openReadableInput "text/plain" 200 closedResponder =
      { resp := closedResponder, transferCreated := false, responded500 := false } ∧
    (writeStatusOnly 200 closedResponder).sock.queued = closedResponder.sock.queued :=
  ⟨(c5_closed_socket_noop openReadableInput "text/plain" "d" 200 closedResponder rfl).1
      rfl rfl,
   ((c5_closed_socket_noop openReadableInput "text/plain" "d" 200 closedResponder
      rfl).2.2).1⟩

/-- C6: if the body source cannot be opened for reading, or is open in a
non-readable mode, write(QIODevice*) answers by
write(StatusCode::InternalServerError) and creates no transfer object; with
an open socket no assertion fires along that path. -/
theorem c6_unreadable_source_responds_500 :
    ∀ (input : InputDevice) (mime : String) (st : Nat) (r : Responder),
      r.sock.isOpen = true →
      ((input.isOpen = false ∧ input.openReadSucceeds = false) ∨
        (input.isOpen = true ∧ input.readable = false)) →
      writeIODevice input mime st r =
        { resp := writeStatusOnly 500 r, transferCreated := false,
          responded500 := true } ∧
      (writeStatusOnly 500 r).assertFailed = r.assertFailed := by
  intro input mime st r hs hbad
  constructor
  · rcases hbad with ⟨h1, h2⟩ | ⟨h1, h2⟩
    · simp [writeIODevice, h1, h2]
    · simp [writeIODevice, h1, h2]
  · exact (writeBytes_assert_of_open "" "application/x-empty" 500 r hs).1

/-- C6 witness: the concrete unopenable source yields the 500 substitution. -/
theorem c6_unreadable_source_responds_500_witness :
    writeIODevice unopenableInput "text/html" 200 freshResponder =
      { resp := writeStatusOnly 500 freshResponder, transferCreated := false,
        responded500 := true } ∧
    (writeStatusOnly 500 freshResponder).assertFailed = freshResponder.assertFailed :=
  c6_unreadable_source_responds_500 unopenableInput "text/html" 200 freshResponder rfl
    (Or.inl ⟨rfl, rfl⟩)

/-- C7: on the streaming path with a readable source and open socket, a
Content-Length header equal to the source's reported size is emitted exactly
when the source is non-sequential, and omitted entirely when it is
sequential (line 206-207). -/
theorem c7_content_length_iff_nonsequential :
    ∀ (input : InputDevice) (mime : String) (st : Nat) (r : Responder),
      input.isOpen = true → input.readable = true → r.sock.isOpen = true →
      r.headers = [] →
      (writeIODevice input mime st r).resp.headers =
        (if input.sequential = true then []
         else [("Content-Length", toString input.size)]) ++
          [("Content-Type", mime)] := by
  intro input mime st r h1 h2 h3 h4
  by_cases hc : input.content = "" <;>
    cases hseq : input.sequential <;>
      simp [writeIODevice, writeStatusLine, writeHeaders, addHeader, h1, h2, h3, h4,
        hseq, hc]

/-- C7 witness: the concrete non-sequential source gets a Content-Length
header with its size. -/
theorem c7_content_length_iff_nonsequential_witness :
    (writeIODevice fileInput "text/plain" 200 freshResponder).resp.headers =
      (if fileInput.sequential = true then []
       else [("Content-Length", toString fileInput.size)]) ++
        [("Content-Type", "text/plain")] :=
  c7_content_length_iff_nonsequential fileInput "text/plain" 200 freshResponder rfl rfl
    rfl rfl

/-- C8: write(StatusCode::InternalServerError) on a fresh responder with an
open socket queues exactly the status line, Content-Type and Content-Length
in that order, the blank line, and the empty body. -/
theorem c8_internal_server_error_bytes :
    (writeStatusOnly 500 freshResponder).sock.queued =
      "HTTP/1.1 500 Internal Server Error\r\nContent-Type: application/x-empty\r\nContent-Length: 0\r\n\r\n" := by
  decide

/-- C4 witness: concrete instances of all three conjuncts at reachable
not-ready and ready states. -/
theorem c4_no_write_when_not_ready_witness :
    writeToOutput 2 (readFromInput 2 1 (initialTransfer 4 [1, 2])) =
      readFromInput 2 1 (initialTransfer 4 [1, 2]) ∧
    (writeToOutput 2
        { readFromInput 2 1 (initialTransfer 4 [1, 2]) with writeReady := true }).writeReady =
      false ∧
    (stepEv (Ev.timer 0 0) (readFromInput 2 1 (initialTransfer 4 [1, 2]))).sinkData =
      (readFromInput 2 1 (initialTransfer 4 [1, 2])).sinkData :=
  ⟨(c4_no_write_when_not_ready (readFromInput 2 1 (initialTransfer 4 [1, 2])) 2).1
      (by decide),
   (c4_no_write_when_not_ready
      { readFromInput 2 1 (initialTransfer 4 [1, 2]) with writeReady := true } 2).2.1
      (by decide),
   ((c4_no_write_when_not_ready (readFromInput 2 1 (initialTransfer 4 [1, 2])) 0).2.2
      (Ev.timer 0 0) (fun j h => Ev.noConfusion h) (by decide)).1⟩

/-- C9: whenever the request slot holds a completed (already dispatched)
message, handleReadyRead clears it — resetting the parse state to Idle —
before the new bytes reach the parse function, so the next message on the
kept-alive connection is parsed from a fresh request. -/
theorem c9_clear_before_next_parse :
    ∀ (p : ParseFn) (wsLib wsConnected : Bool) (r : Req) (bs : String),
      r.state = PState.OnMessageComplete →
      handleReadyRead p wsLib wsConnected r bs =
        handleAfterClear p wsLib wsConnected (clearReq r) bs ∧
      (clearReq r).state = PState.Idle := by
  intro p wsLib wsConnected r bs h
  exact ⟨by simp [handleReadyRead, h], rfl⟩

/-- C9 witness: a concrete dispatched request is cleared before the next
parse. -/
theorem c9_clear_before_next_parse_witness :
    handleReadyRead echoParse false false completeReq "GET" =
      handleAfterClear echoParse false false (clearReq completeReq) "GET" ∧
    (clearReq completeReq).state = PState.Idle :=
  c9_clear_before_next_parse echoParse false false completeReq "GET" rfl

/-- C10: on the upgrade rejection path the end-iterator dereference of
line 113 never happens provided every upgrade-flagged parse result carries
an upgrade header; and without that precondition it does happen — an
upgrade-flagged request with no upgrade header reaches line 113 with the
lookup at end. -/
theorem c10_upgrade_header_deref :
    (∀ (p : ParseFn) (wsLib wsConnected : Bool) (r : Req) (bs : String),
      (∀ r', p r bs = some r' → r'.upgradeFlag = true →
        (findHeader r'.headers "upgrade").isSome = true) →
      (handleAfterClear p wsLib wsConnected r bs).badUpgradeDeref = false) ∧
    (handleAfterClear upgradeNoHeaderParse false false idleReq "GET").badUpgradeDeref =
      true := by
  refine ⟨?_, by decide⟩
  · intro p wsLib wsConnected r bs hpre
    unfold handleAfterClear
    cases hp : p r bs with
    | none => rfl
    | some r' =>
        dsimp only
        split
        · rfl
        · split
          · rename_i hflag
            cases hf : findHeader r'.headers "upgrade" with
            | some hv =>
                dsimp only
                split
                · split
                  · rfl
                  · rfl
                · rfl
            | none =>
                exfalso
                have hsome := hpre r' hp hflag
                rw [hf] at hsome
                simp at hsome
          · rfl

/-- C10 witness: with an upgrade header present, the rejection path
dereference is in bounds. -/
theorem c10_upgrade_header_deref_witness :
    (handleAfterClear upgradeWebsocketParse false false idleReq "GET").badUpgradeDeref =
      false :=
  c10_upgrade_header_deref.1 upgradeWebsocketParse false false idleReq "GET"
    (fun r' hp _ => by
      injection hp with h
      rw [← h]
      decide)
